import Mathlib

/-!
Verification of the website-monitoring-recovery orchestration scripts
(`scripts/main.py`, `scripts/monitor.py`, `scripts/recovery.py`).

The Python result dictionaries are embedded as a `Result` structure whose
fields are `Option`-typed: `none` models a key that is absent or bound to
`None` (the two are indistinguishable through `dict.get`, which is the only
way the scripts read these keys).  The orchestrator's `failure_counts`
dictionary is embedded as a function `String → Option Nat` (`none` = key
absent); its keys are always non-empty strings because
`update_failure_tracking` skips falsy urls, so reads through
`dict.get(url, 0)` with `url = None` are embedded as the constant `0`.
The `previous_results` dictionary is embedded as `String → Option Result`.
Wall-clock timestamps are passed in as opaque strings; response times are
abstracted to natural numbers.
-/

namespace MonitoringRecovery

/-- Embedding of the result dictionaries built by `monitor.py` and consumed
by `main.py`.  Every field mirrors a dictionary key of the same (snake_case)
name; `none` stands for an absent key or a `None` value. -/
structure Result where
  url : Option String := none
  host : Option String := none
  port : Option Nat := none
  status : Option String := none
  previousStatus : Option String := none
  statusCode : Option Nat := none
  responseTime : Option Nat := none
  error : Option String := none
  sslValid : Option Bool := none
  contentCheck : Option String := none
  timestamp : String := ""
deriving DecidableEq, Repr

/-- Python truthiness of `result.get('url')`: `None` and `""` are falsy. -/
def truthyUrl : Option String → Bool
  | none => false
  | some s => !(s = "")

/-! ### FailureTracker (`main.py`, `update_failure_tracking`, lines 121-143) -/

/-- One iteration of the loop body of `update_failure_tracking` for a single
result: skip falsy urls (`if not url: continue`); otherwise initialise the
counter to `0` when the key is absent, then increment on `down`, reset to
`0` on `up`/`slow`, and leave the entry as initialised otherwise. -/
def stepFailure (fc : String → Option Nat) (r : Result) : String → Option Nat :=
  match r.url with
  | none => fc
  | some u =>
    if u = "" then fc
    else
      let fc0 : String → Option Nat := fun v => if v = u then some ((fc u).getD 0) else fc v
      if r.status = some "down" then
        fun v => if v = u then some ((fc0 u).getD 0 + 1) else fc0 v
      else if r.status = some "up" ∨ r.status = some "slow" then
        fun v => if v = u then some 0 else fc0 v
      else fc0

/-- Embeds `update_failure_tracking`: fold the loop body over the batch in order. -/
def update_failure_tracking (fc : String → Option Nat) (results : List Result) :
    String → Option Nat :=
  results.foldl stepFailure fc

/-! ### NotificationGate (`main.py`, `should_send_notification`, lines 176-197) -/

/-- The result `r` is a down site: `r.get('status') == 'down'`. -/
def isDownSite (r : Result) : Bool := r.status = some "down"

/-- The result `r` is a recovered site: status `up` with `previous_status` in
`['down', 'slow', 'degraded']`. -/
def isRecoveredSite (r : Result) : Bool :=
  r.status = some "up" &&
    (r.previousStatus = some "down" || r.previousStatus = some "slow" ||
      r.previousStatus = some "degraded")

/-- The result `r` is a degraded site: status in `['slow', 'degraded']`. -/
def isDegradedSite (r : Result) : Bool :=
  r.status = some "slow" || r.status = some "degraded"

/-- Embeds `should_send_notification`: returns `False` immediately when
`enable_notifications` is off, then checks the three list comprehensions
for non-emptiness in order. -/
def should_send_notification (enableNotifications : Bool) (results : List Result) : Bool :=
  if !enableNotifications then false
  else if results.any isDownSite then true
  else if results.any isRecoveredSite then true
  else if results.any isDegradedSite then true
  else false

/-! ### RecoveryGate (`main.py`, `should_attempt_recovery`, lines 199-212) -/

/-- Embeds `self.failure_counts.get(url, 0)`.  The url read from the result may be
`None`; `None` is never a key of `failure_counts` (all its keys come from
truthy urls in `update_failure_tracking`), so that read yields `0`. -/
def lookupCount (fc : String → Option Nat) : Option String → Nat
  | none => 0
  | some u => (fc u).getD 0

/-- Embeds `should_attempt_recovery`: `False` when `enable_recovery` is off,
otherwise `True` iff some result is down and its failure count has reached
`max_failures_before_recovery` (config default `3`). -/
def should_attempt_recovery (enableRecovery : Bool) (maxFailuresCfg : Option Nat)
    (fc : String → Option Nat) (results : List Result) : Bool :=
  if !enableRecovery then false
  else
    let maxFailures := maxFailuresCfg.getD 3
    results.any fun r => isDownSite r && decide (maxFailures ≤ lookupCount fc r.url)

/-! ### Theorems for claims C1, C4, C5 -/

/-- C1.  `update_failure_tracking` processes the batch sequentially with
`stepFailure`; per result with a (truthy) url: `down` increments the
counter (an absent key counting as 0), `up`/`slow` reset it to 0,
`degraded`/`unknown` (and any other status) keep its value (an absent key
counting as 0, the entry merely being initialised to 0); urls not
occurring in the batch keep their entry unchanged. -/
theorem update_failure_tracking_spec (fc : String → Option Nat) (rs : List Result) :
    update_failure_tracking fc rs = rs.foldl stepFailure fc
    ∧ (∀ (g : String → Option Nat) (r : Result) (u : String), r.url = some u → u ≠ "" →
        ((r.status = some "down" → stepFailure g r u = some ((g u).getD 0 + 1))
        ∧ ((r.status = some "up" ∨ r.status = some "slow") → stepFailure g r u = some 0)
        ∧ ((r.status = some "degraded" ∨ r.status = some "unknown") →
            (stepFailure g r u).getD 0 = (g u).getD 0)))
    ∧ (∀ u : String, (∀ r ∈ rs, r.url ≠ some u) → update_failure_tracking fc rs u = fc u) := by
  refine ⟨rfl, ?_, ?_⟩
  · intro g r u hu hne
    refine ⟨?_, ?_, ?_⟩
    · intro hdown
      simp only [stepFailure, hu, if_neg hne, hdown]
      simp
    · intro hup
      have hnd : ¬ (r.status = some "down") := by
        rcases hup with h | h <;> simp [h]
      simp only [stepFailure, hu, if_neg hne, if_neg hnd, if_pos hup]
      simp
    · intro hdeg
      have hnd : ¬ (r.status = some "down") := by
        rcases hdeg with h | h <;> simp [h]
      have hnu : ¬ (r.status = some "up" ∨ r.status = some "slow") := by
        rcases hdeg with h | h <;> simp [h]
      simp only [stepFailure, hu, if_neg hne, if_neg hnd, if_neg hnu]
      simp
  · intro u hnotin
    unfold update_failure_tracking
    induction rs generalizing fc with
    | nil => rfl
    | cons r t ih =>
      have hr : r.url ≠ some u := hnotin r (by simp)
      have ht : ∀ x ∈ t, x.url ≠ some u := fun x hx => hnotin x (by simp [hx])
      have hstep : stepFailure fc r u = fc u := by
        unfold stepFailure
        match hru : r.url with
        | none => rfl
        | some v =>
          have hvu : v ≠ u := by
            intro h
            exact hr (by simp [hru, h])
          by_cases hv : v = ""
          · simp [hv]
          · simp only [if_neg hv]
            have huv : ¬ (u = v) := fun h => hvu h.symm
            by_cases hd : r.status = some "down"
            · simp [hd, huv]
            · by_cases hus : r.status = some "up" ∨ r.status = some "slow"
              · simp [hd, hus, huv]
              · simp [hd, hus, huv]
      calc List.foldl stepFailure fc (r :: t) u
          = List.foldl stepFailure (stepFailure fc r) t u := rfl
        _ = stepFailure fc r u := ih (stepFailure fc r) ht
        _ = fc u := hstep

/-- Witness for C1: a url at count 1 reporting `down` moves to count 2. -/
theorem update_failure_tracking_spec_witness :
    stepFailure (fun v => if v = "a" then some 1 else none)
      { url := some "a", status := some "down" } "a" = some 2 := by
  have h :=
    ((update_failure_tracking_spec (fun v => if v = "a" then some 1 else none)
        [{ url := some "a", status := some "down" }]).2.1
      (fun v => if v = "a" then some 1 else none)
      { url := some "a", status := some "down" } "a" rfl (by decide)).1 rfl
  simpa using h

/-- C4 counterexample.  The claim asserts that the batch
`[{url:"a", status:"down"}]` always yields `true` and that the
`enable_notifications` flag is consulted by the caller, not the gate.  In
the code the gate itself returns `False` first thing when
`enable_notifications` is off (`main.py` line 178), so with the flag off
that batch yields `false`. -/
theorem should_send_notification_ignores_flag_counterexample :
    should_send_notification false [{ url := some "a", status := some "down" }] = false := by
  rfl

/-- C4 amended.  `should_send_notification` equals: `enable_notifications`
AND (some result down, OR some result `up` with `previous_status` in
`{down, slow, degraded}`, OR some result `slow`/`degraded`); with
notifications enabled, the three concrete examples of the claim hold.  The
decision is a function of the flag and the batch only. -/
theorem should_send_notification_spec :
    (∀ (en : Bool) (rs : List Result),
      should_send_notification en rs
        = (en && (rs.any isDownSite || rs.any isRecoveredSite || rs.any isDegradedSite)))
    ∧ should_send_notification true [{ url := some "a", status := some "down" }] = true
    ∧ should_send_notification true
        [{ url := some "a", status := some "up", previousStatus := some "down" }] = true
    ∧ should_send_notification true
        [{ url := some "a", status := some "up", previousStatus := some "up" }] = false := by
  refine ⟨?_, rfl, rfl, rfl⟩
  intro en rs
  cases en with
  | false => rfl
  | true =>
    simp only [should_send_notification, Bool.not_true, Bool.false_eq_true, if_false, Bool.true_and]
    by_cases h1 : rs.any isDownSite
    · simp [h1]
    · by_cases h2 : rs.any isRecoveredSite
      · simp [h1, h2]
      · by_cases h3 : rs.any isDegradedSite
        · simp [h1, h2, h3]
        · simp [h1, h2, h3]

/-- C5.  `should_attempt_recovery` is `true` iff `enable_recovery` is set
and some result is down with failure count at least the threshold
(`max_failures_before_recovery`, defaulting to `3` when unset); at a count
of exactly the threshold it fires, at threshold minus 1 it does not:
with threshold 3 a count of 2 does not trigger and a count of 3 does. -/
theorem should_attempt_recovery_spec :
    (∀ (en : Bool) (cfg : Option Nat) (fc : String → Option Nat) (rs : List Result),
      (should_attempt_recovery en cfg fc rs = true
        ↔ (en = true ∧ ∃ r ∈ rs, r.status = some "down" ∧ cfg.getD 3 ≤ lookupCount fc r.url)))
    ∧ should_attempt_recovery true (some 3) (fun v => if v = "a" then some 2 else none)
        [{ url := some "a", status := some "down" }] = false
    ∧ should_attempt_recovery true (some 3) (fun v => if v = "a" then some 3 else none)
        [{ url := some "a", status := some "down" }] = true
    ∧ should_attempt_recovery true none (fun v => if v = "a" then some 2 else none)
        [{ url := some "a", status := some "down" }] = false
    ∧ should_attempt_recovery true none (fun v => if v = "a" then some 3 else none)
        [{ url := some "a", status := some "down" }] = true := by
  refine ⟨?_, by decide, by decide, by decide, by decide⟩
  intro en cfg fc rs
  cases en with
  | false => simp [should_attempt_recovery]
  | true =>
    simp only [should_attempt_recovery, Bool.not_true, Bool.false_eq_true, if_false,
      List.any_eq_true, true_and]
    constructor
    · rintro ⟨r, hr, hcond⟩
      rcases Bool.and_eq_true_iff.mp hcond with ⟨hd, hc⟩
      exact ⟨r, hr, by simpa [isDownSite] using hd, by simpa using hc⟩
    · rintro ⟨r, hr, hd, hc⟩
      exact ⟨r, hr, by simp [isDownSite, hd, hc]⟩


/-! ### StateChangeDetector (`main.py`, `detect_state_changes`, lines 145-174) -/

/-- Embedding of a state-change dictionary: url, previous status, current
status, timestamp, plus the (annotated) result object stored under the
`result` key. -/
structure StateChange where
  url : String
  previousStatus : Option String
  currentStatus : Option String
  timestamp : String
  result : Result
deriving DecidableEq, Repr

/-- The in-place mutation `result['previous_status'] = previous_status`,
performed exactly when `url in self.previous_results` (a `None` url is never
a key of that dictionary). -/
def annotateResult (prev : String → Option Result) (r : Result) : Result :=
  match r.url with
  | none => r
  | some u =>
    match prev u with
    | none => r
    | some p => { r with previousStatus := p.status }

/-- The state-change record emitted for one current result: produced exactly
when the url is a key of `previous_results` and the stored status differs
from the current one.  The `result` field holds the same (mutated, hence
annotated) dictionary object as the current batch. -/
def changeOf (now : String) (prev : String → Option Result) (r : Result) :
    Option StateChange :=
  match r.url with
  | none => none
  | some u =>
    match prev u with
    | none => none
    | some p =>
      if p.status ≠ r.status then
        some { url := u, previousStatus := p.status, currentStatus := r.status,
               timestamp := now, result := annotateResult prev r }
      else none

/-- One binding of the dictionary comprehension
`{result.get('url'): result for result in current_results if result.get('url')}`:
falsy urls (`None`, `""`) are filtered out, later bindings overwrite earlier
ones. -/
def insertSnap (m : String → Option Result) (r : Result) : String → Option Result :=
  match r.url with
  | none => m
  | some u => if u = "" then m else fun v => if v = u then some r else m v

/-- The dictionary comprehension that wholesale-replaces
`self.previous_results`: built from the empty dictionary over the batch in
order. -/
def buildSnapshot (rs : List Result) : String → Option Result :=
  rs.foldl insertSnap (fun _ => none)

/-- Embeds `detect_state_changes`.  Returns the emitted change records, the
annotated current results (the loop mutates the result dictionaries in
place), and the new `previous_results` snapshot, which is built from the
annotated result objects. -/
def detect_state_changes (now : String) (prev : String → Option Result)
    (current : List Result) :
    List StateChange × List Result × (String → Option Result) :=
  let annotated := current.map (annotateResult prev)
  (current.filterMap (changeOf now prev), annotated, buildSnapshot annotated)

/-- The last result of `rs` whose url is the (truthy) string `u` — the
binding `u` receives in the snapshot comprehension. -/
def lastUrlMatch (u : String) (rs : List Result) : Option Result :=
  rs.foldl (fun acc r => if r.url = some u ∧ u ≠ "" then some r else acc) none

theorem lastUrlMatch_foldl (u : String) (rs : List Result) (a : Option Result) :
    rs.foldl (fun acc r => if r.url = some u ∧ u ≠ "" then some r else acc) a
      = (lastUrlMatch u rs).elim a some := by
  induction rs generalizing a with
  | nil => rfl
  | cons r t ih =>
    show List.foldl _ (if r.url = some u ∧ u ≠ "" then some r else a) t = _
    rw [ih]
    have hcons : lastUrlMatch u (r :: t)
        = (lastUrlMatch u t).elim (if r.url = some u ∧ u ≠ "" then some r else none) some := by
      show List.foldl _ (if r.url = some u ∧ u ≠ "" then some r else none) t = _
      rw [ih]
    rw [hcons]
    cases hlt : lastUrlMatch u t with
    | some x => rfl
    | none =>
      by_cases hc : r.url = some u ∧ u ≠ ""
      · simp [hc]
      · simp [hc]

theorem lastUrlMatch_cons (u : String) (r : Result) (t : List Result) :
    lastUrlMatch u (r :: t)
      = (lastUrlMatch u t).elim (if r.url = some u ∧ u ≠ "" then some r else none) some := by
  show List.foldl _ (if r.url = some u ∧ u ≠ "" then some r else none) t = _
  rw [lastUrlMatch_foldl]

theorem insertSnap_apply (m : String → Option Result) (r : Result) (u : String) :
    insertSnap m r u = if r.url = some u ∧ u ≠ "" then some r else m u := by
  cases hru : r.url with
  | none =>
    have hc : ¬ ((none : Option String) = some u ∧ u ≠ "") := by
      rintro ⟨h, _⟩; cases h
    simp [insertSnap, hru, hc]
  | some v =>
    by_cases hv : v = ""
    · subst hv
      by_cases hu : u = ""
      · simp [insertSnap, hru, hu]
      · have h1 : ¬ ("" = u) := fun h => hu h.symm
        simp [insertSnap, hru, h1]
    · by_cases huv : u = v
      · subst huv
        simp [insertSnap, hru, hv]
      · have hvu : ¬ v = u := fun h => huv h.symm
        simp [insertSnap, hru, hv, huv, hvu]

theorem buildSnapshot_apply (rs : List Result) (u : String) :
    buildSnapshot rs u = lastUrlMatch u rs := by
  have haux : ∀ (l : List Result) (m : String → Option Result),
      (l.foldl insertSnap m) u = (lastUrlMatch u l).elim (m u) some := by
    intro l
    induction l with
    | nil => intro m; rfl
    | cons r t ih =>
      intro m
      show (t.foldl insertSnap (insertSnap m r)) u = _
      rw [ih, lastUrlMatch_cons]
      cases hlt : lastUrlMatch u t with
      | some x => rfl
      | none =>
        show insertSnap m r u
            = ((if r.url = some u ∧ u ≠ "" then some r else none).elim (m u) some)
        rw [insertSnap_apply]
        by_cases hc : r.url = some u ∧ u ≠ ""
        · simp [hc]
        · simp [hc]
  have h := haux rs (fun _ => none)
  rw [buildSnapshot, h]
  cases lastUrlMatch u rs <;> rfl

theorem annotateResult_url (prev : String → Option Result) (r : Result) :
    (annotateResult prev r).url = r.url := by
  cases hru : r.url with
  | none => simp [annotateResult, hru]
  | some u =>
    cases hp : prev u with
    | none => simp [annotateResult, hru, hp]
    | some p => simp [annotateResult, hru, hp]

theorem annotateResult_status (prev : String → Option Result) (r : Result) :
    (annotateResult prev r).status = r.status := by
  cases hru : r.url with
  | none => simp [annotateResult, hru]
  | some u =>
    cases hp : prev u with
    | none => simp [annotateResult, hru, hp]
    | some p => simp [annotateResult, hru, hp]

theorem lastUrlMatch_map (u : String) (rs : List Result) (f : Result → Result)
    (hf : ∀ r, (f r).url = r.url) :
    lastUrlMatch u (rs.map f) = (lastUrlMatch u rs).map f := by
  induction rs with
  | nil => rfl
  | cons r t ih =>
    rw [List.map_cons, lastUrlMatch_cons, lastUrlMatch_cons, ih, hf]
    cases hlt : lastUrlMatch u t with
    | some x => rfl
    | none =>
      by_cases hc : r.url = some u ∧ u ≠ ""
      · simp [hc]
      · simp [hc]

theorem lastUrlMatch_isSome (u : String) (rs : List Result) :
    (lastUrlMatch u rs).isSome = true ↔ (u ≠ "" ∧ ∃ r ∈ rs, r.url = some u) := by
  induction rs with
  | nil => simp [lastUrlMatch]
  | cons r t ih =>
    rw [lastUrlMatch_cons]
    cases hlt : lastUrlMatch u t with
    | some x =>
      rw [hlt] at ih
      constructor
      · intro _
        obtain ⟨hne, y, hy, hyu⟩ := ih.mp rfl
        exact ⟨hne, y, List.mem_cons_of_mem r hy, hyu⟩
      · intro _
        rfl
    | none =>
      rw [hlt] at ih
      have ih' : ¬ (u ≠ "" ∧ ∃ r ∈ t, r.url = some u) := by
        intro h
        have hfalse := ih.mpr h
        simp at hfalse
      show (if r.url = some u ∧ u ≠ "" then some r else none).isSome = true ↔ _
      by_cases hc : r.url = some u ∧ u ≠ ""
      · rw [if_pos hc]
        constructor
        · exact fun _ => ⟨hc.2, r, List.mem_cons_self r t, hc.1⟩
        · exact fun _ => rfl
      · rw [if_neg hc]
        constructor
        · intro h
          exact absurd h (by simp)
        · rintro ⟨hne, y, hy, hyu⟩
          rcases List.mem_cons.mp hy with h | hyt
          · exact absurd ⟨h ▸ hyu, hne⟩ hc
          · exact absurd ⟨hne, y, hyt, hyu⟩ ih'

theorem lastUrlMatch_mem (u : String) (rs : List Result) :
    ∀ x, lastUrlMatch u rs = some x → x ∈ rs ∧ x.url = some u := by
  induction rs with
  | nil => intro x hx; simp [lastUrlMatch] at hx
  | cons r t ih =>
    intro x hx
    rw [lastUrlMatch_cons] at hx
    cases hlt : lastUrlMatch u t with
    | some y =>
      rw [hlt] at hx
      have hy := ih y hlt
      have hsome : (some y : Option Result) = some x := hx
      injection hsome with hxy
      exact ⟨List.mem_cons_of_mem r (hxy ▸ hy.1), hxy ▸ hy.2⟩
    | none =>
      rw [hlt] at hx
      have hx' : (if r.url = some u ∧ u ≠ "" then some r else none) = some x := hx
      by_cases hc : r.url = some u ∧ u ≠ ""
      · rw [if_pos hc] at hx'
        injection hx' with hx'
        subst hx'
        exact ⟨List.mem_cons_self r t, hc.1⟩
      · rw [if_neg hc] at hx'
        cases hx'


/-- C2.  `detect_state_changes` emits exactly one change record per current
result whose url is a key of the previous snapshot with a differing status
(in batch order, via `changeOf`), none for equal statuses, unseen urls or
absent urls; it sets `previous_status` on exactly the current results whose
url is a key of the snapshot and leaves the others untouched; and it
replaces the snapshot wholesale by a url-to-result map whose keys are
exactly the (truthy) urls present in the current batch, each mapped to an
annotated result of the batch carrying that url. -/
theorem detect_state_changes_spec (now : String) (prev : String → Option Result)
    (current : List Result) :
    (detect_state_changes now prev current).1 = current.filterMap (changeOf now prev)
    ∧ (∀ (r : Result) (u : String) (p : Result), r.url = some u → prev u = some p →
        ((p.status ≠ r.status →
          changeOf now prev r
            = some { url := u, previousStatus := p.status, currentStatus := r.status,
                     timestamp := now, result := annotateResult prev r })
        ∧ (p.status = r.status → changeOf now prev r = none)
        ∧ annotateResult prev r = { r with previousStatus := p.status }))
    ∧ (∀ (r : Result) (u : String), r.url = some u → prev u = none →
        changeOf now prev r = none ∧ annotateResult prev r = r)
    ∧ (∀ r : Result, r.url = none →
        changeOf now prev r = none ∧ annotateResult prev r = r)
    ∧ (detect_state_changes now prev current).2.1 = current.map (annotateResult prev)
    ∧ (∀ u : String, (((detect_state_changes now prev current).2.2 u).isSome = true
        ↔ (u ≠ "" ∧ ∃ r ∈ current, r.url = some u)))
    ∧ (∀ (u : String) (x : Result), (detect_state_changes now prev current).2.2 u = some x →
        x.url = some u ∧ x ∈ current.map (annotateResult prev)) := by
  refine ⟨rfl, ?_, ?_, ?_, rfl, ?_, ?_⟩
  · intro r u p hu hp
    refine ⟨?_, ?_, ?_⟩
    · intro hne
      simp [changeOf, hu, hp, hne]
    · intro heq
      simp [changeOf, hu, hp, heq]
    · simp [annotateResult, hu, hp]
  · intro r u hu hp
    exact ⟨by simp [changeOf, hu, hp], by simp [annotateResult, hu, hp]⟩
  · intro r hu
    exact ⟨by simp [changeOf, hu], by simp [annotateResult, hu]⟩
  · intro u
    show ((buildSnapshot (current.map (annotateResult prev))) u).isSome = true ↔ _
    rw [buildSnapshot_apply,
      lastUrlMatch_map u current (annotateResult prev) (annotateResult_url prev)]
    have hiso : ∀ (o : Option Result) (f : Result → Result), (o.map f).isSome = o.isSome := by
      intro o f
      cases o <;> rfl
    rw [hiso]
    exact lastUrlMatch_isSome u current
  · intro u x hx
    have hx' : buildSnapshot (current.map (annotateResult prev)) u = some x := hx
    rw [buildSnapshot_apply,
      lastUrlMatch_map u current (annotateResult prev) (annotateResult_url prev)] at hx'
    rcases Option.map_eq_some'.mp hx' with ⟨y, hy, hxy⟩
    obtain ⟨hymem, hyurl⟩ := lastUrlMatch_mem u current y hy
    subst hxy
    exact ⟨by rw [annotateResult_url]; exact hyurl, List.mem_map_of_mem _ hymem⟩

/-- Witness for C2: a url previously `up` and currently `down` produces the
one expected change record carrying the annotated result. -/
theorem detect_state_changes_spec_witness :
    changeOf "t"
      (fun v => if v = "a" then some { url := some "a", status := some "up" } else none)
      { url := some "a", status := some "down" }
      = some { url := "a", previousStatus := some "up", currentStatus := some "down",
               timestamp := "t",
               result := annotateResult
                 (fun v => if v = "a" then some { url := some "a", status := some "up" } else none)
                 { url := some "a", status := some "down" } } :=
  (((detect_state_changes_spec "t"
      (fun v => if v = "a" then some { url := some "a", status := some "up" } else none)
      [{ url := some "a", status := some "down" }]).2.1)
    { url := some "a", status := some "down" } "a" { url := some "a", status := some "up" }
    rfl (by decide)).1 (by decide)

/-! ### Cross-cycle snapshot evolution (claim C3) -/

/-- The initial `self.previous_results = {}` of the orchestrator. -/
def emptySnapshot : String → Option Result := fun _ => none

/-- Repeated detection: fold `detect_state_changes` over a sequence of
cycles, each a timestamp together with that cycle's batch, keeping only the
`previous_results` state the orchestrator carries across cycles. -/
def runDetect (prev : String → Option Result)
    (cycles : List (String × List Result)) : String → Option Result :=
  cycles.foldl (fun p c => (detect_state_changes c.1 p c.2).2.2) prev

theorem runDetect_append_singleton (prev : String → Option Result)
    (cycles : List (String × List Result)) (c : String × List Result) :
    runDetect prev (cycles ++ [c])
      = (detect_state_changes c.1 (runDetect prev cycles) c.2).2.2 := by
  unfold runDetect
  rw [List.foldl_append]
  rfl

theorem detect_snapshot_apply (now : String) (p : String → Option Result)
    (b : List Result) (u : String) :
    (detect_state_changes now p b).2.2 u
      = (lastUrlMatch u b).map (annotateResult p) := by
  show buildSnapshot (b.map (annotateResult p)) u = _
  rw [buildSnapshot_apply, lastUrlMatch_map u b (annotateResult p) (annotateResult_url p)]

/-- C3.  Starting from the empty snapshot, after any sequence of detection
cycles, annotating a fresh result `r` of the next batch: a result with no
url is untouched; when no cycle ran yet, or when `r`'s url has no (truthy)
occurrence in the immediately preceding cycle's batch, `r` carries no
`previous_status`; when it does occur, `previous_status` is exactly the
status of its last occurrence in the immediately preceding batch — never a
status from an older cycle. -/
theorem detect_cross_cycle_previous_status (cycles : List (String × List Result))
    (r : Result) (hfresh : r.previousStatus = none) :
    (r.url = none → annotateResult (runDetect emptySnapshot cycles) r = r)
    ∧ (∀ u : String, r.url = some u → cycles.getLast? = none →
        (annotateResult (runDetect emptySnapshot cycles) r).previousStatus = none)
    ∧ (∀ (u : String) (c : String × List Result), r.url = some u →
        cycles.getLast? = some c →
        ((lastUrlMatch u c.2 = none →
            (annotateResult (runDetect emptySnapshot cycles) r).previousStatus = none)
        ∧ (∀ p : Result, lastUrlMatch u c.2 = some p →
            (annotateResult (runDetect emptySnapshot cycles) r).previousStatus = p.status))) := by
  refine ⟨?_, ?_, ?_⟩
  · intro hu
    simp [annotateResult, hu]
  · intro u hu hlast
    cases cycles using List.reverseRecOn with
    | nil =>
      simp [runDetect, annotateResult, hu, emptySnapshot, hfresh]
    | append_singleton l c =>
      rw [List.getLast?_concat] at hlast
      cases hlast
  · intro u c hu hlast
    have hprev : runDetect emptySnapshot cycles u
        = (lastUrlMatch u c.2).map
            (annotateResult (runDetect emptySnapshot cycles.dropLast)) := by
      cases cycles using List.reverseRecOn with
      | nil => simp at hlast
      | append_singleton l c0 =>
        rw [List.getLast?_concat] at hlast
        injection hlast with h
        subst h
        rw [runDetect_append_singleton, detect_snapshot_apply, List.dropLast_concat]
    constructor
    · intro hnone
      rw [hnone, Option.map_none'] at hprev
      simp [annotateResult, hu, hprev, hfresh]
    · intro p hp
      rw [hp, Option.map_some'] at hprev
      have hgoal : (annotateResult (runDetect emptySnapshot cycles) r).previousStatus
          = (annotateResult (runDetect emptySnapshot cycles.dropLast) p).status := by
        simp [annotateResult, hu, hprev]
      rw [hgoal, annotateResult_status]

/-- Witness for C3: after one cycle in which url `a` was `down`, a fresh
`up` result for `a` is annotated with `previous_status = down`. -/
theorem detect_cross_cycle_previous_status_witness :
    (annotateResult
      (runDetect emptySnapshot [("t1", [{ url := some "a", status := some "down" }])])
      { url := some "a", status := some "up" }).previousStatus = some "down" :=
  ((detect_cross_cycle_previous_status
      [("t1", [{ url := some "a", status := some "down" }])]
      { url := some "a", status := some "up" } rfl).2.2 "a"
    ("t1", [{ url := some "a", status := some "down" }]) rfl rfl).2
    { url := some "a", status := some "down" } (by decide)


/-! ### Orchestrator configuration loading (`main.py`, `_load_config`, lines 59-77) -/

/-- The `orchestration` section of the orchestrator's built-in default
configuration. -/
structure OrchestrationSettings where
  check_interval : Nat
  enable_recovery : Bool
  enable_notifications : Bool
  max_failures_before_recovery : Nat
  notification_cooldown : Nat
deriving DecidableEq, Repr

/-- The `logging` section of the orchestrator's configuration. -/
structure LoggingSettings where
  level : String
  file : String
deriving DecidableEq, Repr

/-- The orchestrator configuration document. -/
structure MainConfig where
  orchestration : OrchestrationSettings
  logging : LoggingSettings
deriving DecidableEq, Repr

/-- The built-in default configuration returned by `_load_config` when the
file is missing (`main.py` lines 65-77). -/
def defaultMainConfig : MainConfig :=
  { orchestration := { check_interval := 300, enable_recovery := true,
                       enable_notifications := true, max_failures_before_recovery := 3,
                       notification_cooldown := 1800 },
    logging := { level := "INFO", file := "logs/main.log" } }

/-- The possible states of the file at the configured path: missing
(`open` raises `FileNotFoundError`), present but not valid YAML
(`yaml.safe_load` raises a `YAMLError` carrying a message), or a valid
configuration document. -/
inductive ConfigFile where
  | absent
  | malformed (msg : String)
  | present (cfg : MainConfig)
deriving DecidableEq, Repr

/-- Embeds `MonitoringOrchestrator._load_config`.  The `try` block catches
only `FileNotFoundError` (returning the built-in defaults); a `YAMLError`
raised by `yaml.safe_load` on a malformed file is not caught and propagates
to the caller, embedded as `Except.error`. -/
def load_config : ConfigFile → Except String MainConfig
  | .absent => .ok defaultMainConfig
  | .malformed msg => .error msg
  | .present cfg => .ok cfg

/-- C8 counterexample.  The claim asserts `_load_config` returns the
built-in defaults whenever the file is absent or malformed and never raises
fatally.  On a malformed file the code raises the YAML parse error (only
`FileNotFoundError` is caught, `main.py` line 64), which escapes the
orchestrator's constructor; it does not return the defaults. -/
theorem load_config_malformed_counterexample :
    load_config (ConfigFile.malformed "mapping values are not allowed here")
        = Except.error "mapping values are not allowed here"
    ∧ load_config (ConfigFile.malformed "mapping values are not allowed here")
        ≠ Except.ok defaultMainConfig := by
  constructor
  · rfl
  · intro h
    cases h

/-- C8 amended.  `_load_config` returns the built-in default configuration
exactly when the file is absent; a malformed file raises the parse error to
the caller (fatal to orchestrator construction); a valid file is returned
as-is. -/
theorem load_config_spec :
    load_config ConfigFile.absent = Except.ok defaultMainConfig
    ∧ (∀ msg : String, load_config (ConfigFile.malformed msg) = Except.error msg)
    ∧ (∀ cfg : MainConfig, load_config (ConfigFile.present cfg) = Except.ok cfg)
    ∧ defaultMainConfig.orchestration.check_interval = 300
    ∧ defaultMainConfig.orchestration.enable_recovery = true
    ∧ defaultMainConfig.orchestration.enable_notifications = true
    ∧ defaultMainConfig.orchestration.max_failures_before_recovery = 3
    ∧ defaultMainConfig.orchestration.notification_cooldown = 1800 :=
  ⟨rfl, fun _ => rfl, fun _ => rfl, rfl, rfl, rfl, rfl, rfl⟩

/-! ### Prober (`monitor.py`, `check_website`, lines 67-173) -/

/-- The outcome of the HTTP request made inside the `try` block of
`check_website`: a response (status code, whether the body contains the
expected content, elapsed time), or one of the exception classes handled by
the `except` clauses. -/
inductive ProbeOutcome where
  | ok (statusCode : Nat) (bodyHasContent : Bool) (responseTime : Nat)
  | timeout
  | connectionError (msg : String)
  | sslError (msg : String)
  | otherError (msg : String)
deriving DecidableEq, Repr

/-- Embeds `check_website`.  `contentExpected` is the truthiness of the
`expected_content` argument; `sslCheck` is the outcome of the separate
`_check_ssl_certificate` probe; response times are abstracted to naturals
(the `response_time > threshold` comparison becomes `thresholdCfg < rt`).
Every exception branch produces a result dictionary; nothing escapes. -/
def check_website (url : String) (expectedStatus : List Nat) (contentExpected : Bool)
    (timeoutCfg : Nat) (thresholdCfg : Nat) (sslCheck : Option Bool) (now : String)
    (outcome : ProbeOutcome) : Result :=
  let base : Result := { url := some url, timestamp := now, status := some "unknown" }
  match outcome with
  | .ok code bodyHas rt =>
    let r1 : Result := { base with responseTime := some rt, statusCode := some code }
    let r2 : Result :=
      if code ∈ expectedStatus then { r1 with status := some "up" }
      else { r1 with status := some "down",
                     error := some ("Unexpected status code: " ++ toString code) }
    let r3 : Result :=
      if contentExpected = true ∧ r2.status = some "up" then
        (if bodyHas then { r2 with contentCheck := some "pass" }
         else { r2 with contentCheck := some "fail", status := some "degraded",
                        error := some "Expected content not found" })
      else r2
    let r4 : Result := { r3 with sslValid := sslCheck }
    if thresholdCfg < rt ∧ r4.status = some "up" then { r4 with status := some "slow" }
    else r4
  | .timeout =>
    { base with status := some "down", error := some "Request timeout",
                responseTime := some timeoutCfg }
  | .connectionError msg =>
    { base with status := some "down", error := some ("Connection error: " ++ msg) }
  | .sslError msg =>
    { base with status := some "down", error := some ("SSL error: " ++ msg),
                sslValid := some false }
  | .otherError msg =>
    { base with status := some "down", error := some ("Unexpected error: " ++ msg) }

/-- A probe failure mode of the claim: a timeout, connection error, SSL
error or other exception; or a response with an unexpected status code; or
an expected-content mismatch. -/
def probeFailed (expectedStatus : List Nat) (contentExpected : Bool) :
    ProbeOutcome → Prop
  | .ok code bodyHas _ =>
      code ∉ expectedStatus ∨ (contentExpected = true ∧ bodyHas = false)
  | _ => True

/-- C9.  For every url and probe failure mode (timeout, connection error,
SSL error, other exception, unexpected status code, content mismatch),
`check_website` returns a result whose status is `down` or `degraded` with
a non-null error string; being a total function of the outcome, it never
propagates an exception to its caller. -/
theorem check_website_failure_spec (url : String) (expectedStatus : List Nat)
    (contentExpected : Bool) (timeoutCfg thresholdCfg : Nat) (sslCheck : Option Bool)
    (now : String) (outcome : ProbeOutcome)
    (hfail : probeFailed expectedStatus contentExpected outcome) :
    ((check_website url expectedStatus contentExpected timeoutCfg thresholdCfg
        sslCheck now outcome).status = some "down"
      ∨ (check_website url expectedStatus contentExpected timeoutCfg thresholdCfg
        sslCheck now outcome).status = some "degraded")
    ∧ ((check_website url expectedStatus contentExpected timeoutCfg thresholdCfg
        sslCheck now outcome).error).isSome = true := by
  cases outcome with
  | ok code bodyHas rt =>
    rcases hfail with hcode | ⟨hce, hbody⟩
    · constructor
      · left
        simp [check_website, hcode]
      · simp [check_website, hcode]
    · by_cases hmem : code ∈ expectedStatus
      · constructor
        · right
          simp [check_website, hmem, hce, hbody]
        · simp [check_website, hmem, hce, hbody]
      · constructor
        · left
          simp [check_website, hmem]
        · simp [check_website, hmem]
  | timeout => exact ⟨Or.inl rfl, rfl⟩
  | connectionError msg => exact ⟨Or.inl rfl, rfl⟩
  | sslError msg => exact ⟨Or.inl rfl, rfl⟩
  | otherError msg => exact ⟨Or.inl rfl, rfl⟩

/-- Witness for C9: a timeout probe yields a down-or-degraded status and an
error string. -/
theorem check_website_failure_spec_witness :
    ((check_website "https://a" [200] false 10 5 none "t" ProbeOutcome.timeout).status
        = some "down"
      ∨ (check_website "https://a" [200] false 10 5 none "t" ProbeOutcome.timeout).status
        = some "degraded")
    ∧ ((check_website "https://a" [200] false 10 5 none "t" ProbeOutcome.timeout).error).isSome
        = true :=
  check_website_failure_spec "https://a" [200] false 10 5 none "t" ProbeOutcome.timeout
    trivial

/-! ### Port checks (`monitor.py`, `check_port`, lines 196-240) -/

/-- The outcome of the socket connection attempt in `check_port`: a
`connect_ex` return code, a DNS resolution failure (`socket.gaierror`), or
any other exception. -/
inductive PortOutcome where
  | connected (code : Int)
  | dnsError (msg : String)
  | otherError (msg : String)
deriving DecidableEq, Repr

/-- Embeds `check_port`.  The result dictionary has `host` and `port` keys
but no `url` key; its status is `open`, `closed` or `error`. -/
def check_port (host : String) (port : Nat) (rt : Nat) (now : String)
    (outcome : PortOutcome) : Result :=
  let base : Result := { host := some host, port := some port, timestamp := now,
                         status := some "unknown" }
  match outcome with
  | .connected code =>
    if code = 0 then { base with status := some "open", responseTime := some rt }
    else { base with status := some "closed", responseTime := some rt,
                     error := some ("Port " ++ toString port ++ " is closed or filtered") }
  | .dnsError msg =>
    { base with status := some "error", error := some ("DNS resolution failed: " ++ msg) }
  | .otherError msg =>
    { base with status := some "error", error := some ("Connection error: " ++ msg) }

/-- A result with one of the three port-check statuses. -/
def hasPortStatus (r : Result) : Prop :=
  r.status = some "open" ∨ r.status = some "closed" ∨ r.status = some "error"

theorem port_status_gates_false (x : Result) (hx : hasPortStatus x) :
    isDownSite x = false ∧ isRecoveredSite x = false ∧ isDegradedSite x = false := by
  rcases hx with h | h | h <;>
    exact ⟨by simp [isDownSite, h], by simp [isRecoveredSite, h], by simp [isDegradedSite, h]⟩

/-- C10.  A `check_port` result has status `open`, `closed` or `error`, a
`host` key and no `url` key; therefore it leaves every failure counter
unchanged, is never annotated, never yields a state-change record, never
enters the snapshot, and a batch of such results (a closed or unreachable
port by itself) makes neither `should_send_notification` nor
`should_attempt_recovery` return true; a batch of url-less results leaves
the whole failure-counter map unchanged. -/
theorem check_port_isolated (host : String) (port rt : Nat) (now : String)
    (outcome : PortOutcome) (r : Result)
    (hr : r = check_port host port rt now outcome) :
    (r.url = none ∧ r.host = some host ∧ hasPortStatus r)
    ∧ (∀ fc : String → Option Nat, stepFailure fc r = fc)
    ∧ (∀ (now2 : String) (prev : String → Option Result), changeOf now2 prev r = none)
    ∧ (∀ prev : String → Option Result, annotateResult prev r = r)
    ∧ (∀ m : String → Option Result, insertSnap m r = m)
    ∧ (∀ (en : Bool) (rs : List Result), (∀ x ∈ rs, hasPortStatus x) →
        should_send_notification en rs = false)
    ∧ (∀ (en : Bool) (cfg : Option Nat) (fc : String → Option Nat) (rs : List Result),
        (∀ x ∈ rs, hasPortStatus x) → should_attempt_recovery en cfg fc rs = false)
    ∧ (∀ (fc : String → Option Nat) (rs : List Result), (∀ x ∈ rs, x.url = none) →
        update_failure_tracking fc rs = fc) := by
  have hurl : r.url = none := by
    cases outcome with
    | connected code =>
      by_cases hc : code = 0 <;> simp [hr, check_port, hc]
    | dnsError msg => simp [hr, check_port]
    | otherError msg => simp [hr, check_port]
  have hshape : r.host = some host ∧ hasPortStatus r := by
    cases outcome with
    | connected code =>
      by_cases hc : code = 0
      · exact ⟨by simp [hr, check_port, hc], Or.inl (by simp [hr, check_port, hc])⟩
      · exact ⟨by simp [hr, check_port, hc], Or.inr (Or.inl (by simp [hr, check_port, hc]))⟩
    | dnsError msg =>
      exact ⟨by simp [hr, check_port], Or.inr (Or.inr (by simp [hr, check_port]))⟩
    | otherError msg =>
      exact ⟨by simp [hr, check_port], Or.inr (Or.inr (by simp [hr, check_port]))⟩
  refine ⟨⟨hurl, hshape.1, hshape.2⟩, ?_, ?_, ?_, ?_, ?_, ?_, ?_⟩
  · intro fc
    simp [stepFailure, hurl]
  · intro now2 prev
    simp [changeOf, hurl]
  · intro prev
    simp [annotateResult, hurl]
  · intro m
    simp [insertSnap, hurl]
  · intro en rs hall
    cases en with
    | false => rfl
    | true =>
      have hdown : rs.any isDownSite = false := by
        rw [List.any_eq_false]
        intro x hx
        simp [(port_status_gates_false x (hall x hx)).1]
      have hrec : rs.any isRecoveredSite = false := by
        rw [List.any_eq_false]
        intro x hx
        simp [(port_status_gates_false x (hall x hx)).2.1]
      have hdeg : rs.any isDegradedSite = false := by
        rw [List.any_eq_false]
        intro x hx
        simp [(port_status_gates_false x (hall x hx)).2.2]
      simp [should_send_notification, hdown, hrec, hdeg]
  · intro en cfg fc rs hall
    cases en with
    | false => rfl
    | true =>
      have hany : (rs.any fun x => isDownSite x
          && decide ((Option.getD cfg 3) ≤ lookupCount fc x.url)) = false := by
        rw [List.any_eq_false]
        intro x hx
        simp [(port_status_gates_false x (hall x hx)).1]
      simp [should_attempt_recovery, hany]
  · intro fc rs hall
    unfold update_failure_tracking
    induction rs generalizing fc with
    | nil => rfl
    | cons x t ih =>
      have hx : x.url = none := hall x (by simp)
      have ht : ∀ y ∈ t, y.url = none := fun y hy => hall y (by simp [hy])
      have hstep : stepFailure fc x = fc := by
        simp [stepFailure, hx]
      rw [List.foldl_cons, hstep]
      exact ih fc ht

/-- Witness for C10: a refused connection yields a `closed` result that
leaves a failure counter untouched and triggers no notification. -/
theorem check_port_isolated_witness :
    (check_port "h" 80 1 "t" (PortOutcome.connected 111)).url = none
    ∧ stepFailure (fun v => if v = "a" then some 2 else none)
        (check_port "h" 80 1 "t" (PortOutcome.connected 111))
        = (fun v => if v = "a" then some 2 else none)
    ∧ should_send_notification true [check_port "h" 80 1 "t" (PortOutcome.connected 111)]
        = false := by
  have h := check_port_isolated "h" 80 1 "t" (PortOutcome.connected 111)
    (check_port "h" 80 1 "t" (PortOutcome.connected 111)) rfl
  refine ⟨h.1.1, h.2.1 _, h.2.2.2.2.2.1 true _ ?_⟩
  intro x hx
  rcases List.mem_singleton.mp hx with rfl
  exact h.1.2.2


/-! ### Recovery execution (`recovery.py`, `recover_from_monitoring_results`,
lines 400-485) -/

/-- One entry of the configured `actions` list: a bare string, a dictionary
(whose `type` and `target` keys may be absent), or any other value (logged
as invalid and skipped). -/
inductive ActionConfig where
  | str (s : String)
  | dict (ty : Option String) (tg : Option String)
  | other
deriving DecidableEq, Repr

/-- Normalisation of one action configuration entry as done at the top of
the inner loop: a string becomes `(action_type, None)`, a dictionary its
`type`/`target` keys; anything else is skipped (`continue`). -/
def parseAction : ActionConfig → Option (Option String × Option String)
  | .str s => some (some s, none)
  | .dict ty tg => some (ty, tg)
  | .other => none

/-- The valid (non-skipped) normalised actions, in declaration order. -/
def validActions (actions : List ActionConfig) : List (Option String × Option String) :=
  actions.filterMap parseAction

/-- Outcome of one `perform_recovery_action` invocation: a returned boolean
or a raised exception. -/
inductive ExecOutcome where
  | ret (success : Bool)
  | exc (msg : String)
deriving DecidableEq, Repr

/-- One per-action audit dictionary appended to `actions_performed`. -/
structure ActionRecord where
  action_type : Option String
  target : Option String
  url : String
  timestamp : String
  success : Bool
  error : Option String
deriving DecidableEq, Repr

/-- The `recovery_results` dictionary.  The disabled early return carries
only `enabled = False`; the remaining fields keep their initial values. -/
structure RecoveryResults where
  enabled : Bool
  timestamp : String := ""
  actions_performed : List ActionRecord := []
  successful_actions : Nat := 0
  failed_actions : Nat := 0
deriving DecidableEq, Repr

/-- The audit record built for the `k`-th action invocation (outcome
`exec k`) of the normalised action `p` against the site with the given
url: success is the returned boolean (`False` on an exception), error the
exception message (absent otherwise). -/
def mkRecord (now url : String) (exec : Nat → ExecOutcome)
    (p : Nat × (Option String × Option String)) : ActionRecord :=
  { action_type := p.2.1, target := p.2.2, url := url, timestamp := now,
    success := (match exec p.1 with | .ret b => b | .exc _ => false),
    error := (match exec p.1 with | .exc m => some m | .ret _ => none) }

/-- The inner loop of `recover_from_monitoring_results` over the configured
actions for one down site, threading the invocation counter `k` through the
oracle `exec`: invalid entries are skipped without a record; every valid
action is attempted, its record appended, and the success/failure tallies
updated — a failure (or exception) never stops the iteration. -/
def runActions (exec : Nat → ExecOutcome) (now url : String) :
    Nat → List ActionConfig → List ActionRecord × Nat × Nat × Nat
  | k, [] => ([], 0, 0, k)
  | k, a :: rest =>
    match parseAction a with
    | none => runActions exec now url k rest
    | some p =>
      let rcd := mkRecord now url exec (k, p)
      let out := runActions exec now url (k + 1) rest
      (rcd :: out.1,
       (match exec k with | .ret true => 1 | _ => 0) + out.2.1,
       (match exec k with | .ret true => 0 | _ => 1) + out.2.2.1,
       out.2.2.2)

/-- The outer loop over the down sites, threading the invocation counter;
each site runs the whole configured action sequence. -/
def runSites (actions : List ActionConfig) (exec : Nat → ExecOutcome) (now : String) :
    Nat → List Result → List ActionRecord × Nat × Nat × Nat
  | k, [] => ([], 0, 0, k)
  | k, site :: rest =>
    let a := runActions exec now (site.url.getD "unknown") k actions
    let b := runSites actions exec now a.2.2.2 rest
    (a.1 ++ b.1, a.2.1 + b.2.1, a.2.2.1 + b.2.2.1, b.2.2.2)

/-- Embeds `recover_from_monitoring_results`: early return when recovery is
disabled; otherwise nothing happens when no site is down, and the nested
loops accumulate audit records and tallies over every down site and every
configured action (the inter-action `time.sleep` is pure I/O and not
modelled). -/
def recover_from_monitoring_results (enabled : Bool) (actions : List ActionConfig)
    (exec : Nat → ExecOutcome) (now : String) (monitoring_results : List Result) :
    RecoveryResults :=
  if !enabled then { enabled := false }
  else
    let base : RecoveryResults := { enabled := true, timestamp := now }
    let down_sites := monitoring_results.filter isDownSite
    if down_sites.isEmpty then base
    else
      let t := runSites actions exec now 0 down_sites
      { base with actions_performed := t.1, successful_actions := t.2.1,
                  failed_actions := t.2.2.1 }

/-- Reference audit trail: for each down site in order, one record per
valid configured action in declaration order, numbered consecutively. -/
def expectedRecords (actions : List ActionConfig) (exec : Nat → ExecOutcome)
    (now : String) : Nat → List Result → List ActionRecord
  | _, [] => []
  | k, site :: rest =>
    ((validActions actions).enumFrom k).map (mkRecord now (site.url.getD "unknown") exec)
      ++ expectedRecords actions exec now (k + (validActions actions).length) rest

theorem runActions_spec (exec : Nat → ExecOutcome) (now url : String)
    (actions : List ActionConfig) : ∀ k : Nat,
    (runActions exec now url k actions).1
        = ((validActions actions).enumFrom k).map (mkRecord now url exec)
    ∧ (runActions exec now url k actions).2.1 + (runActions exec now url k actions).2.2.1
        = (validActions actions).length
    ∧ (runActions exec now url k actions).2.2.2 = k + (validActions actions).length := by
  induction actions with
  | nil => intro k; exact ⟨rfl, rfl, rfl⟩
  | cons a rest ih =>
    intro k
    cases hpa : parseAction a with
    | none =>
      have hva : validActions (a :: rest) = validActions rest := by
        simp [validActions, hpa]
      have hrun : runActions exec now url k (a :: rest) = runActions exec now url k rest := by
        simp [runActions, hpa]
      rw [hrun, hva]
      exact ih k
    | some p =>
      have hva : validActions (a :: rest) = p :: validActions rest := by
        simp [validActions, hpa]
      obtain ⟨ih1, ih2, ih3⟩ := ih (k + 1)
      refine ⟨?_, ?_, ?_⟩
      · simp only [runActions, hpa, hva, List.enumFrom, List.map_cons]
        rw [ih1]
      · have h21 : (runActions exec now url k (a :: rest)).2.1
            = (match exec k with | ExecOutcome.ret true => 1 | _ => 0)
              + (runActions exec now url (k + 1) rest).2.1 := by
          simp [runActions, hpa]
        have h221 : (runActions exec now url k (a :: rest)).2.2.1
            = (match exec k with | ExecOutcome.ret true => 0 | _ => 1)
              + (runActions exec now url (k + 1) rest).2.2.1 := by
          simp [runActions, hpa]
        have hm : (match exec k with | ExecOutcome.ret true => (1 : Nat) | _ => 0)
            + (match exec k with | ExecOutcome.ret true => (0 : Nat) | _ => 1) = 1 := by
          cases hek : exec k with
          | ret b => cases b <;> rfl
          | exc m => rfl
        rw [h21, h221, hva, List.length_cons]
        omega
      · simp only [runActions, hpa, hva, List.length_cons]
        rw [ih3]
        omega

theorem runSites_spec (actions : List ActionConfig) (exec : Nat → ExecOutcome)
    (now : String) (sites : List Result) : ∀ k : Nat,
    (runSites actions exec now k sites).1 = expectedRecords actions exec now k sites
    ∧ (runSites actions exec now k sites).1.length
        = sites.length * (validActions actions).length
    ∧ (runSites actions exec now k sites).2.1 + (runSites actions exec now k sites).2.2.1
        = sites.length * (validActions actions).length := by
  induction sites with
  | nil =>
    intro k
    exact ⟨rfl, by simp [runSites], by simp [runSites]⟩
  | cons site rest ih =>
    intro k
    obtain ⟨ha1, ha2, ha3⟩ :=
      runActions_spec exec now (site.url.getD "unknown") actions k
    obtain ⟨ih1, ih2, ih3⟩ :=
      ih ((runActions exec now (site.url.getD "unknown") k actions).2.2.2)
    refine ⟨?_, ?_, ?_⟩
    · show (runActions exec now (site.url.getD "unknown") k actions).1
          ++ (runSites actions exec now _ rest).1 = _
      rw [ih1, ha1, ha3]
      rfl
    · show ((runActions exec now (site.url.getD "unknown") k actions).1
          ++ (runSites actions exec now _ rest).1).length = _
      rw [List.length_append, ih2, ha1, List.length_map, List.enumFrom_length,
        List.length_cons]
      ring
    · show (runActions exec now (site.url.getD "unknown") k actions).2.1
            + (runSites actions exec now _ rest).2.1
          + ((runActions exec now (site.url.getD "unknown") k actions).2.2.1
            + (runSites actions exec now _ rest).2.2.1) = _
      have hlen : (site :: rest).length * (validActions actions).length
          = rest.length * (validActions actions).length + (validActions actions).length := by
        rw [List.length_cons]
        ring
      omega

/-- C6.  With recovery enabled, `recover_from_monitoring_results` runs, for
every result with status `down` in batch order, the whole configured action
sequence in declaration order (invalid entries skipped): the audit trail
equals the reference trail of one `{action_type, target, url, timestamp,
success, error}` record per valid action per down site with consecutive
invocation numbering — independent of any action's failure or exception,
so a failure stops neither the sequence nor later sites — and
`successful_actions + failed_actions` equals the number of valid actions
attempted. -/
theorem recover_from_monitoring_results_spec (actions : List ActionConfig)
    (exec : Nat → ExecOutcome) (now : String) (monitoring_results : List Result) :
    (recover_from_monitoring_results true actions exec now monitoring_results).enabled = true
    ∧ (recover_from_monitoring_results true actions exec now
          monitoring_results).actions_performed
        = expectedRecords actions exec now 0 (monitoring_results.filter isDownSite)
    ∧ (recover_from_monitoring_results true actions exec now
          monitoring_results).actions_performed.length
        = (monitoring_results.filter isDownSite).length * (validActions actions).length
    ∧ (recover_from_monitoring_results true actions exec now
            monitoring_results).successful_actions
        + (recover_from_monitoring_results true actions exec now
            monitoring_results).failed_actions
        = (recover_from_monitoring_results true actions exec now
            monitoring_results).actions_performed.length := by
  obtain ⟨h1, h2, h3⟩ :=
    runSites_spec actions exec now (monitoring_results.filter isDownSite) 0
  by_cases hempty : (monitoring_results.filter isDownSite).isEmpty
  · have hnil : monitoring_results.filter isDownSite = [] := by
      simpa [List.isEmpty_iff] using hempty
    rw [hnil] at h1 h2 h3 ⊢
    refine ⟨?_, ?_, ?_, ?_⟩ <;>
      simp [recover_from_monitoring_results, hnil, expectedRecords]
  · have hrec : recover_from_monitoring_results true actions exec now monitoring_results
        = { enabled := true, timestamp := now,
            actions_performed :=
              (runSites actions exec now 0 (monitoring_results.filter isDownSite)).1,
            successful_actions :=
              (runSites actions exec now 0 (monitoring_results.filter isDownSite)).2.1,
            failed_actions :=
              (runSites actions exec now 0 (monitoring_results.filter isDownSite)).2.2.1 } := by
      simp [recover_from_monitoring_results, hempty]
    rw [hrec]
    exact ⟨rfl, h1, by rw [h2], by rw [h3, ← h2]⟩


/-! ### Orchestrator cycle (`main.py`, `perform_monitoring_cycle`, lines 214-307) -/

/-- One configured website entry (only its presence matters to the cycle's
`if not websites` check; probing is delegated to the monitor). -/
structure Website where
  url : String
deriving DecidableEq, Repr

/-- Outcome of `self.emailer.send_monitoring_alert`: returned `True`,
returned `False`, or raised an exception. -/
inductive NotifyOutcome where
  | sent
  | notSent
  | raised (msg : String)
deriving DecidableEq, Repr

/-- The orchestrator's cross-cycle mutable state: `self.failure_counts`
and `self.previous_results`. -/
structure OrchState where
  failure_counts : String → Option Nat
  previous_results : String → Option Result

/-- The `cycle_results` dictionary (the wall-clock `duration_seconds`
field is not modelled). -/
structure CycleRecord where
  timestamp : String
  monitoring_results : List Result
  state_changes : List StateChange
  notifications_sent : Bool
  recovery_attempted : Bool
  recovery_results : Option RecoveryResults
  errors : List String
deriving DecidableEq, Repr

/-- Embeds `perform_monitoring_cycle`.  The fallible collaborators are
oracles: `monitorOutcome` is what `self.monitor.monitor_websites` returns
or raises (an exception there is caught by the outer handler, which appends
the message and returns, skipping the remaining stages), `notifyOutcome`
and `recoveryOutcome` the notifier's and recovery manager's behaviour, each
wrapped in its own handler.  Detection mutates the result dictionaries in
place, so the recorded monitoring results are the annotated ones and both
gates see them.  On a recovery exception `recovery_attempted` keeps its
initial `False` (the flag is assigned only after the call returns). -/
def perform_monitoring_cycle (enableNotifications enableRecovery : Bool)
    (maxFailuresCfg : Option Nat) (st : OrchState) (websites : List Website)
    (monitorOutcome : Except String (List Result)) (notifyOutcome : NotifyOutcome)
    (recoveryOutcome : Except String RecoveryResults) (now : String) :
    CycleRecord × OrchState :=
  let base : CycleRecord :=
    { timestamp := now, monitoring_results := [], state_changes := [],
      notifications_sent := false, recovery_attempted := false,
      recovery_results := none, errors := [] }
  if websites.isEmpty then
    ({ base with errors := ["No websites configured for monitoring"] }, st)
  else
    match monitorOutcome with
    | .error e =>
      ({ base with errors := ["Error during monitoring cycle: " ++ e] }, st)
    | .ok results =>
      let fc1 := update_failure_tracking st.failure_counts results
      let det := detect_state_changes now st.previous_results results
      let st1 : OrchState := { failure_counts := fc1, previous_results := det.2.2 }
      let notifyPart : Bool × List String :=
        if should_send_notification enableNotifications det.2.1 then
          match notifyOutcome with
          | .sent => (true, [])
          | .notSent => (false, ["Failed to send notification"])
          | .raised m => (false, ["Error sending notification: " ++ m])
        else (false, [])
      let recoveryPart : Bool × Option RecoveryResults × List String :=
        if should_attempt_recovery enableRecovery maxFailuresCfg fc1 det.2.1 then
          match recoveryOutcome with
          | .ok rr => (true, some rr, [])
          | .error m => (false, none, ["Error during recovery: " ++ m])
        else (false, none, [])
      ({ base with monitoring_results := det.2.1,
                   state_changes := det.1,
                   notifications_sent := notifyPart.1,
                   recovery_attempted := recoveryPart.1,
                   recovery_results := recoveryPart.2.1,
                   errors := notifyPart.2 ++ recoveryPart.2.2 }, st1)

/-- C7 counterexample.  The claim asserts that an exception raised in any
single stage is caught, appended to the errors list, and does not prevent
later stages from running.  When the monitoring stage raises, the outer
handler catches and appends it, but the remaining stages are skipped: the
state-change detection never runs, so the snapshot is not wholesale-replaced
from the (empty) available results — a stale url survives — whereas running
detection on the available data would have dropped it (third conjunct). -/
theorem perform_monitoring_cycle_stage_abort_counterexample :
    (perform_monitoring_cycle true true (some 3)
        { failure_counts := fun _ => none,
          previous_results := fun v =>
            if v = "a" then some { url := some "a", status := some "up" } else none }
        [{ url := "https://a" }] (Except.error "boom") NotifyOutcome.sent
        (Except.ok { enabled := true }) "t").1.errors
      = ["Error during monitoring cycle: boom"]
    ∧ (perform_monitoring_cycle true true (some 3)
        { failure_counts := fun _ => none,
          previous_results := fun v =>
            if v = "a" then some { url := some "a", status := some "up" } else none }
        [{ url := "https://a" }] (Except.error "boom") NotifyOutcome.sent
        (Except.ok { enabled := true }) "t").2.previous_results "a"
      = some { url := some "a", status := some "up" }
    ∧ (detect_state_changes "t"
        (fun v => if v = "a" then some { url := some "a", status := some "up" } else none)
        []).2.2 "a" = none := by
  refine ⟨by decide, by decide, by decide⟩

/-- C7 amended.  In `perform_monitoring_cycle`: a failure or exception in
the notification stage (returned `False` or raised) is recorded in the
errors list, the recovery gate is still evaluated on the same annotated
results, and the cycle record's recovery fields and the cross-cycle state
are independent of the notification outcome; an exception in the recovery
stage is recorded and leaves the notification outcome and the state
untouched; an exception in the monitoring stage is caught and appended by
the enclosing cycle handler, but aborts the remaining stages of the cycle
with the state unchanged; an empty target list likewise records an error
and leaves the state unchanged. -/
theorem perform_monitoring_cycle_spec (en er : Bool) (mf : Option Nat) (st : OrchState)
    (ws : List Website) (mo : Except String (List Result))
    (ro : Except String RecoveryResults) (now : String) :
    (∀ n1 n2 : NotifyOutcome,
      (perform_monitoring_cycle en er mf st ws mo n1 ro now).2
          = (perform_monitoring_cycle en er mf st ws mo n2 ro now).2
      ∧ (perform_monitoring_cycle en er mf st ws mo n1 ro now).1.recovery_attempted
          = (perform_monitoring_cycle en er mf st ws mo n2 ro now).1.recovery_attempted
      ∧ (perform_monitoring_cycle en er mf st ws mo n1 ro now).1.recovery_results
          = (perform_monitoring_cycle en er mf st ws mo n2 ro now).1.recovery_results)
    ∧ (∀ (results : List Result) (m : String), ws.isEmpty = false → mo = Except.ok results →
        should_send_notification en
          (detect_state_changes now st.previous_results results).2.1 = true →
        ("Error sending notification: " ++ m)
            ∈ (perform_monitoring_cycle en er mf st ws mo (NotifyOutcome.raised m) ro now).1.errors
        ∧ "Failed to send notification"
            ∈ (perform_monitoring_cycle en er mf st ws mo NotifyOutcome.notSent ro now).1.errors)
    ∧ (∀ (results : List Result) (m : String) (n : NotifyOutcome),
        ws.isEmpty = false → mo = Except.ok results →
        should_attempt_recovery er mf
          (update_failure_tracking st.failure_counts results)
          (detect_state_changes now st.previous_results results).2.1 = true →
        ("Error during recovery: " ++ m)
            ∈ (perform_monitoring_cycle en er mf st ws mo n (Except.error m) now).1.errors
        ∧ (∀ ro2 : Except String RecoveryResults,
            (perform_monitoring_cycle en er mf st ws mo n (Except.error m) now).2
              = (perform_monitoring_cycle en er mf st ws mo n ro2 now).2
            ∧ (perform_monitoring_cycle en er mf st ws mo n (Except.error m)
                  now).1.notifications_sent
              = (perform_monitoring_cycle en er mf st ws mo n ro2 now).1.notifications_sent))
    ∧ (∀ (e : String) (n : NotifyOutcome), ws.isEmpty = false →
        (perform_monitoring_cycle en er mf st ws (Except.error e) n ro now).1.errors
            = ["Error during monitoring cycle: " ++ e]
        ∧ (perform_monitoring_cycle en er mf st ws (Except.error e) n ro now).2 = st)
    ∧ (∀ n : NotifyOutcome, ws.isEmpty = true →
        (perform_monitoring_cycle en er mf st ws mo n ro now).1.errors
            = ["No websites configured for monitoring"]
        ∧ (perform_monitoring_cycle en er mf st ws mo n ro now).2 = st) := by
  refine ⟨?_, ?_, ?_, ?_, ?_⟩
  · intro n1 n2
    by_cases hws : ws.isEmpty
    · simp [perform_monitoring_cycle, hws]
    · cases mo with
      | error e => simp [perform_monitoring_cycle, hws]
      | ok results => simp [perform_monitoring_cycle, hws]
  · intro results m hws hmo hgate
    subst hmo
    constructor
    · simp [perform_monitoring_cycle, hws, hgate]
    · simp [perform_monitoring_cycle, hws, hgate]
  · intro results m n hws hmo hgate
    subst hmo
    refine ⟨?_, ?_⟩
    · simp [perform_monitoring_cycle, hws, hgate]
    · intro ro2
      constructor
      · simp [perform_monitoring_cycle, hws]
      · simp [perform_monitoring_cycle, hws]
  · intro e n hws
    exact ⟨by simp [perform_monitoring_cycle, hws], by simp [perform_monitoring_cycle, hws]⟩
  · intro n hws
    exact ⟨by simp [perform_monitoring_cycle, hws], by simp [perform_monitoring_cycle, hws]⟩

/-- Witness for C7: with one configured website, a down probe result and a
raising notifier, the notification error is recorded in the cycle's errors
list. -/
theorem perform_monitoring_cycle_spec_witness :
    ("Error sending notification: " ++ "smtp down")
      ∈ (perform_monitoring_cycle true true (some 3)
          { failure_counts := fun _ => none, previous_results := fun _ => none }
          [{ url := "https://a" }]
          (Except.ok [{ url := some "a", status := some "down" }])
          (NotifyOutcome.raised "smtp down") (Except.ok { enabled := true })
          "t").1.errors :=
  ((perform_monitoring_cycle_spec true true (some 3)
      { failure_counts := fun _ => none, previous_results := fun _ => none }
      [{ url := "https://a" }]
      (Except.ok [{ url := some "a", status := some "down" }])
      (Except.ok { enabled := true }) "t").2.1
    [{ url := some "a", status := some "down" }] "smtp down"
    (by decide) rfl (by decide)).1

end MonitoringRecovery
